import Mathlib

/-!
# Spur chat-agent backend: shallow embedding and verification

This file embeds the conversation-state and message-orchestration layer of the
Spur chat backend (`src/backend/src/index.ts`, `src/backend/src/db/migrate.ts`
and the LLM module exporting `generateReply`) as pure Lean functions, and
proves or refutes the specified properties of the `POST /chat/message` and
`GET /chat/history/:sessionId` handlers.

Modelling conventions:
* SQLite storage is a pure `Db` value: a list of conversation rows, a list of
  message rows in insertion order, and the next `AUTOINCREMENT` id.  Inserts
  return `Except DbError` (`duplicateKey` for the `conversations` primary key,
  `constraintViolation` for the `messages` foreign key, which better-sqlite3
  enforces by default).
* `ORDER BY created_at ASC` is a stable sort of the filtered rows by
  `created_at` (equal timestamps keep insertion order, SQLite rowid order).
* The external model provider is an oracle `LLMEnv`: whether an API key is
  configured, and the outcome of a completion call (thrown error, or a
  response whose first-choice message content may be absent).
* Timestamps (`Date.now()`) are explicit `Nat` parameters of the handler.
* JavaScript string operations (`trim`, `length`, `slice`) are modelled on
  the code-point list of the string.
-/

namespace SpurChat

/-- Characters removed by JavaScript `String.prototype.trim`
(ECMAScript WhiteSpace and LineTerminator). -/
def isJsWhitespace (c : Char) : Bool :=
  c == ' ' || c == '\t' || c == '\n' || c == '\r' || c == '\u000B' || c == '\u000C' ||
  c == '\u00A0' || c == '\u1680' ||
  (decide (' ' ≤ c) && decide (c ≤ '\u200A')) ||
  c == '\u2028' || c == '\u2029' || c == '\u202F' || c == '\u205F' || c == '\u3000' ||
  c == '\uFEFF'

/-- JavaScript `s.trim()`: strip leading and trailing whitespace. -/
def jsTrim (s : String) : String :=
  String.mk (((s.toList.dropWhile isJsWhitespace).reverse.dropWhile isJsWhitespace).reverse)

/-- Generator-facing role of a chat message (TS type `ChatMessage.role`). -/
inductive Role where
  | user
  | assistant
deriving Repr, DecidableEq

/-- TS interface `ChatMessage` from the LLM module. -/
structure ChatMessage where
  role : Role
  content : String
deriving Repr, DecidableEq

/-- Outcome of one call to the external completion API: either the call throws
(network fault, provider-side error), or it returns a response whose
first-choice message content is `some` text or absent/null. -/
inductive ProviderOutcome where
  | success (content : Option String)
  | failure
deriving Repr, DecidableEq

/-- Environment of the LLM module: the `OPENAI_API_KEY` variable as seen at
module load, and the oracle for the provider call. -/
structure LLMEnv where
  apiKey : Option String
  outcome : ProviderOutcome
deriving Repr, DecidableEq

/-- `openai !== null && process.env.OPENAI_API_KEY` is truthy: the lazy client
exists exactly when a non-empty key is configured. -/
def LLMEnv.hasClient (env : LLMEnv) : Bool :=
  match env.apiKey with
  | none => false
  | some k => k != ""

/-- Fallback returned by `generateReply` when no API key is configured. -/
def noKeyFallback : String :=
  "Our AI agent is currently unavailable because the API key is not configured. Please contact human support at support@spurstore.test."

/-- Fallback substituted (via `??`) when the response carries no message content. -/
def noContentFallback : String :=
  "Sorry, I couldn\x27t generate a response just now. Please try again."

/-- Fallback returned from the `catch` block when the provider call throws. -/
def llmErrorFallback : String :=
  "Sorry, our AI agent ran into a problem. Please try again in a moment or contact human support at support@spurstore.test."

/-- `userMessage.length > 1000 ? userMessage.slice(0, 1000) : userMessage`. -/
def truncatedUserMessage (userMessage : String) : String :=
  if userMessage.length > 1000 then String.mk (userMessage.toList.take 1000) else userMessage

/-- `history.slice(-10)`: the last (up to) 10 entries of the history handed to
`generateReply`, i.e. the generator input history. -/
def generatorInputHistory (history : List ChatMessage) : List ChatMessage :=
  history.drop (history.length - 10)

/-- TS `generateReply(history, userMessage)`.  The provider call consumes the
system prompt, `history.slice(-10)` and the truncated user message; its result
is the oracle `env.outcome`.  Every failure is handled internally, so the
embedding returns a plain `String`. -/
def generateReply (env : LLMEnv) (history : List ChatMessage) (userMessage : String) : String :=
  if env.hasClient then
    let _messages : List ChatMessage :=
      generatorInputHistory history ++ [⟨Role.user, truncatedUserMessage userMessage⟩]
    match env.outcome with
    | .failure => llmErrorFallback
    | .success none => noContentFallback
    | .success (some content) => content
  else
    noKeyFallback

/-- A row of the `conversations` table. -/
structure ConvRow where
  id : String
  created_at : Nat
deriving Repr, DecidableEq

/-- A row of the `messages` table. -/
structure MsgRow where
  id : Nat
  conversation_id : String
  sender : String
  text : String
  created_at : Nat
deriving Repr, DecidableEq

/-- Storage state: both tables (message rows in insertion order) and the next
`AUTOINCREMENT` value for `messages.id`. -/
structure Db where
  conversations : List ConvRow
  messages : List MsgRow
  nextMsgId : Nat
deriving Repr, DecidableEq

/-- Errors raised by better-sqlite3 for the schema of `migrate.ts`. -/
inductive DbError where
  | duplicateKey
  | constraintViolation
deriving Repr, DecidableEq

/-- Whether a `conversations` row with the given id exists. -/
def convExists (db : Db) (c : String) : Bool :=
  db.conversations.any (fun row => row.id == c)

/-- `INSERT INTO conversations (id, created_at) VALUES (?, ?)`:
fails on the primary key if the id is already present. -/
def insertConversation (db : Db) (id : String) (ts : Nat) : Except DbError Db :=
  if convExists db id then .error .duplicateKey
  else .ok { db with conversations := db.conversations ++ [⟨id, ts⟩] }

/-- `INSERT INTO messages (conversation_id, sender, text, created_at) VALUES (?, ?, ?, ?)`:
fails on the foreign key when the conversation does not exist; otherwise
appends the row and returns its fresh id. -/
def insertMessage (db : Db) (c sender text : String) (ts : Nat) :
    Except DbError (Nat × Db) :=
  if convExists db c then
    .ok (db.nextMsgId,
      { db with
        messages := db.messages ++ [⟨db.nextMsgId, c, sender, text, ts⟩],
        nextMsgId := db.nextMsgId + 1 })
  else .error .constraintViolation

/-- Comparison used by `ORDER BY created_at ASC`. -/
def msgLe (a b : MsgRow) : Prop := a.created_at ≤ b.created_at

instance : DecidableRel msgLe := fun a b => Nat.decLe a.created_at b.created_at

instance : IsTotal MsgRow msgLe := ⟨fun a b => Nat.le_total a.created_at b.created_at⟩

instance : IsTrans MsgRow msgLe := ⟨fun _ _ _ => Nat.le_trans⟩

/-- `SELECT ... FROM messages WHERE conversation_id = ? ORDER BY created_at ASC`:
the conversation's rows, stably sorted by timestamp. -/
def messagesOf (db : Db) (c : String) : List MsgRow :=
  List.insertionSort msgLe (db.messages.filter (fun m => m.conversation_id == c))

/-- Row shape of the history-endpoint message listing (`sender, text, created_at`). -/
structure HistoryRow where
  sender : String
  text : String
  created_at : Nat
deriving Repr, DecidableEq

/-- Projection of a stored message row to the history-endpoint row shape. -/
def MsgRow.toHistoryRow (m : MsgRow) : HistoryRow :=
  ⟨m.sender, m.text, m.created_at⟩

/-- JSON result of `GET /chat/history/:sessionId`. -/
inductive HistoryResponse where
  | ok (sessionId : String) (createdAt : Nat) (messages : List HistoryRow)
  | notFound (error : String)
deriving Repr, DecidableEq

/-- HTTP status of a history response. -/
def HistoryResponse.status : HistoryResponse → Nat
  | .ok _ _ _ => 200
  | .notFound _ => 404

/-- `SELECT id, created_at FROM conversations WHERE id = ?` (`.get`). -/
def getConversation (db : Db) (c : String) : Option ConvRow :=
  db.conversations.find? (fun row => row.id == c)

/-- The `GET /chat/history/:sessionId` handler.  It issues only SELECTs; the
state is returned unchanged. -/
def getChatHistory (db : Db) (sessionId : String) : HistoryResponse × Db :=
  match getConversation db sessionId with
  | none => (.notFound "Conversation not found.", db)
  | some conv =>
      (.ok sessionId conv.created_at ((messagesOf db sessionId).map MsgRow.toHistoryRow), db)

/-- TS interface `ChatRequestBody`; `none` models an absent JSON field. -/
structure ChatRequestBody where
  message : Option String
  sessionId : Option String
deriving Repr, DecidableEq

/-- JSON result of `POST /chat/message`. -/
inductive ChatResponse where
  | ok (reply : String) (sessionId : String)
  | badRequest (error : String)
  | serverError (error : String)
deriving Repr, DecidableEq

/-- HTTP status of a chat response. -/
def ChatResponse.status : ChatResponse → Nat
  | .ok _ _ => 200
  | .badRequest _ => 400
  | .serverError _ => 500

/-- 400 body for an empty (after trimming) message. -/
def emptyMessageError : String := "Message cannot be empty."

/-- 400 body for an over-length message. -/
def messageTooLongError : String :=
  "Message is too long. Please keep it under 4000 characters so our agent can handle it."

/-- 500 body of the handler's catch block. -/
def chatServerError : String :=
  "Something went wrong on our side while processing your message. Please try again in a moment."

/-- History handed to `generateReply` by the handler: the query
`ORDER BY created_at ASC LIMIT 20` (first 20 rows of the ascending order),
with stored senders mapped to roles (`"user"` to `user`, anything else,
i.e. `"ai"`, to `assistant`). -/
def contextRows (db : Db) (c : String) : List ChatMessage :=
  ((messagesOf db c).take 20).map (fun row =>
    { role := if row.sender == "user" then Role.user else Role.assistant
      content := row.text })

/-- `let sessionId = body.sessionId; if (!sessionId) ...`: a missing or empty
(falsy) session id selects the freshly generated UUID. -/
def resolvedSessionId (body : ChatRequestBody) (freshId : String) : String :=
  match body.sessionId with
  | none => freshId
  | some s => if s == "" then freshId else s

/-- Whether the handler creates a new conversation (falsy `body.sessionId`). -/
def needsNewConversation (body : ChatRequestBody) : Bool :=
  match body.sessionId with
  | none => true
  | some s => s == ""

/-- The `POST /chat/message` handler.  `freshId` is the `randomUUID()` that
would be drawn, `now` the `Date.now()` captured before the writes and `now2`
the `Date.now()` of the AI-reply insert.  A thrown storage error reaches the
catch block as a 500 with the state committed so far (no rollback). -/
def postChatMessage (db : Db) (body : ChatRequestBody) (freshId : String)
    (now now2 : Nat) (env : LLMEnv) : ChatResponse × Db :=
  let message := jsTrim (body.message.getD "")
  if message = "" then
    (.badRequest emptyMessageError, db)
  else if message.length > 4000 then
    (.badRequest messageTooLongError, db)
  else
    let sessionId := resolvedSessionId body freshId
    match (if needsNewConversation body then insertConversation db freshId now else .ok db :
        Except DbError Db) with
    | .error _ => (.serverError chatServerError, db)
    | .ok db0 =>
      match insertMessage db0 sessionId "user" message now with
      | .error _ => (.serverError chatServerError, db0)
      | .ok (_, db1) =>
        let replyText := generateReply env (contextRows db1 sessionId) message
        match insertMessage db1 sessionId "ai" replyText now2 with
        | .error _ => (.serverError chatServerError, db1)
        | .ok (_, db2) => (.ok replyText sessionId, db2)

/-- The human-support contact channel named by the fallback strings. -/
def supportContact : String := "support@spurstore.test"

/-- Whether `pat` occurs as a contiguous run inside a character list. -/
def hasInfix (pat : List Char) : List Char → Bool
  | [] => pat.isEmpty
  | c :: rest => pat.isPrefixOf (c :: rest) || hasInfix pat rest

/-- Whether a string names the human-support contact channel. -/
def mentionsSupportContact (s : String) : Bool :=
  hasInfix supportContact.toList s.toList

/-- Precondition for the handler's session resolution to succeed: either a
fresh conversation is created (no primary-key clash on the fresh UUID) or the
supplied session id references an existing conversation. -/
def sessionResolvable (db : Db) (body : ChatRequestBody) (freshId : String) : Bool :=
  if needsNewConversation body then !(convExists db freshId)
  else convExists db (resolvedSessionId body freshId)

/-- Storage state after the handler's session-resolution step. -/
def dbWithConv (db : Db) (body : ChatRequestBody) (freshId : String) (now : Nat) : Db :=
  if needsNewConversation body then
    { db with conversations := db.conversations ++ [⟨freshId, now⟩] }
  else db

/-- Derived description of the storage state after the handler's user-turn
insert on the successful path. -/
def dbAfterUserTurn (db : Db) (body : ChatRequestBody) (freshId : String) (now : Nat) : Db :=
  Db.mk (dbWithConv db body freshId now).conversations
    (db.messages ++ [⟨db.nextMsgId, resolvedSessionId body freshId, "user",
      jsTrim (body.message.getD ""), now⟩])
    (db.nextMsgId + 1)

/-- Derived description of the reply computed on the successful path. -/
def runReply (db : Db) (body : ChatRequestBody) (freshId : String) (now : Nat)
    (env : LLMEnv) : String :=
  generateReply env
    (contextRows (dbAfterUserTurn db body freshId now) (resolvedSessionId body freshId))
    (jsTrim (body.message.getD ""))

/-- Derived description of the storage state after a successful request. -/
def dbAfterRun (db : Db) (body : ChatRequestBody) (freshId : String) (now now2 : Nat)
    (env : LLMEnv) : Db :=
  Db.mk (dbWithConv db body freshId now).conversations
    (db.messages ++ [⟨db.nextMsgId, resolvedSessionId body freshId, "user",
        jsTrim (body.message.getD ""), now⟩,
      ⟨db.nextMsgId + 1, resolvedSessionId body freshId, "ai",
        runReply db body freshId now env, now2⟩])
    (db.nextMsgId + 2)

/-- Claim-side context (from the spec's words, for comparison with the code's
`contextRows`/`generatorInputHistory` pipeline): the 10 most recent messages of
the conversation in ascending chronological order, mapped to generator roles. -/
def mostRecentTenContext (db : Db) (c : String) : List ChatMessage :=
  ((messagesOf db c).drop ((messagesOf db c).length - 10)).map (fun row =>
    { role := if row.sender == "user" then Role.user else Role.assistant
      content := row.text })

/-- Conversation `"s"` holding 51 messages with timestamps 0..50 and
alternating senders: the storage state right after the user turn of the 26th
exchange was persisted (25 complete exchanges plus the current user turn). -/
def db51 : Db :=
  { conversations := [⟨"s", 0⟩],
    messages := (List.range 51).map (fun i =>
      ⟨i, "s", if i % 2 == 0 then "user" else "ai", "m" ++ toString i, i⟩),
    nextMsgId := 51 }

/-! ## Theorems -/

/-- C2 (amended): `generateReply` is total by construction and its value is
fully characterized: a missing/empty credential, a thrown provider call and a
response without message content each yield a fixed non-empty fallback string;
the credential and provider-error fallbacks name the human-support contact
(the missing-content one does not, see the counterexample); a response with
content is returned verbatim. -/
theorem generateReply_total_characterization (env : LLMEnv) (history : List ChatMessage)
    (userMessage : String) :
    (env.hasClient = false → generateReply env history userMessage = noKeyFallback) ∧
    (env.hasClient = true → env.outcome = .failure →
      generateReply env history userMessage = llmErrorFallback) ∧
    (env.hasClient = true → env.outcome = .success none →
      generateReply env history userMessage = noContentFallback) ∧
    (∀ content, env.hasClient = true → env.outcome = .success (some content) →
      generateReply env history userMessage = content) ∧
    noKeyFallback ≠ "" ∧ llmErrorFallback ≠ "" ∧ noContentFallback ≠ "" ∧
    mentionsSupportContact noKeyFallback = true ∧
    mentionsSupportContact llmErrorFallback = true := by
  refine ⟨fun h => by simp [generateReply, h],
    fun h1 h2 => by simp [generateReply, h1, h2],
    fun h1 h2 => by simp [generateReply, h1, h2],
    fun c h1 h2 => by simp [generateReply, h1, h2],
    by decide, by decide, by decide, by decide, by decide⟩

/-- Witness for C2's theorem at concrete environments. -/
theorem generateReply_total_characterization_witness :
    generateReply ⟨none, ProviderOutcome.failure⟩ [] "hi" = noKeyFallback ∧
    generateReply ⟨some "k", ProviderOutcome.failure⟩ [] "hi" = llmErrorFallback ∧
    mentionsSupportContact noKeyFallback = true :=
  ⟨(generateReply_total_characterization ⟨none, .failure⟩ [] "hi").1 (by decide),
   (generateReply_total_characterization ⟨some "k", .failure⟩ [] "hi").2.1 (by decide) rfl,
   (generateReply_total_characterization ⟨some "k", .failure⟩ [] "hi").2.2.2.2.2.2.2.1⟩

/-- C2 counterexample: the missing-content failure path returns a fallback that
does not name any human-support contact, and a provider response whose content
is the empty string is passed through verbatim, so the result can be empty. -/
theorem generateReply_support_contact_counterexample :
    generateReply ⟨some "k", ProviderOutcome.success none⟩ [] "hi" = noContentFallback ∧
    mentionsSupportContact noContentFallback = false ∧
    generateReply ⟨some "k", ProviderOutcome.success (some "")⟩ [] "hi" = "" :=
  ⟨rfl, by decide, rfl⟩

/-- C5: inserting a message under a conversation id that references no existing
conversation fails with the foreign-key constraint violation; under an existing
conversation it succeeds and returns a message identifier. -/
theorem appendMessage_foreign_key (db : Db) (c sender text : String) (ts : Nat) :
    (convExists db c = false →
      insertMessage db c sender text ts = .error DbError.constraintViolation) ∧
    (convExists db c = true →
      ∃ msgId db', insertMessage db c sender text ts = .ok (msgId, db')) := by
  constructor
  · intro h; simp [insertMessage, h]
  · intro h
    have hOk : insertMessage db c sender text ts = .ok (db.nextMsgId,
        { db with
          messages := db.messages ++ [⟨db.nextMsgId, c, sender, text, ts⟩],
          nextMsgId := db.nextMsgId + 1 }) := by
      simp [insertMessage, h]
    exact ⟨_, _, hOk⟩

/-- Witness for C5's theorem: a missing and an existing conversation. -/
theorem appendMessage_foreign_key_witness :
    insertMessage ⟨[], [], 0⟩ "s" "user" "hi" 0 = .error DbError.constraintViolation ∧
    (∃ msgId db', insertMessage ⟨[⟨"s", 0⟩], [], 0⟩ "s" "user" "hi" 0 = .ok (msgId, db')) :=
  ⟨(appendMessage_foreign_key ⟨[], [], 0⟩ "s" "user" "hi" 0).1 (by decide),
   (appendMessage_foreign_key ⟨[⟨"s", 0⟩], [], 0⟩ "s" "user" "hi" 0).2 (by decide)⟩

/-- C6: a message that trims to the empty string is rejected with the
empty-message error (HTTP 400) and the storage state is returned unchanged:
no message row is persisted and no conversation is created. -/
theorem empty_message_rejected_no_mutation (db : Db) (t : String) (sid : Option String)
    (freshId : String) (now now2 : Nat) (env : LLMEnv) (h : jsTrim t = "") :
    postChatMessage db ⟨some t, sid⟩ freshId now now2 env = (.badRequest emptyMessageError, db) ∧
    (postChatMessage db ⟨some t, sid⟩ freshId now now2 env).1.status = 400 := by
  have heq : postChatMessage db ⟨some t, sid⟩ freshId now now2 env =
      (.badRequest emptyMessageError, db) := by
    simp [postChatMessage, h]
  exact ⟨heq, by rw [heq]; rfl⟩

/-- Witness for C6's theorem: two spaces trim to the empty string. -/
theorem empty_message_rejected_no_mutation_witness :
    postChatMessage ⟨[], [], 0⟩ ⟨some "  ", none⟩ "s" 0 1 ⟨none, ProviderOutcome.failure⟩ =
      (.badRequest emptyMessageError, ⟨[], [], 0⟩) ∧
    (postChatMessage ⟨[], [], 0⟩ ⟨some "  ", none⟩ "s" 0 1
      ⟨none, ProviderOutcome.failure⟩).1.status = 400 :=
  empty_message_rejected_no_mutation ⟨[], [], 0⟩ "  " none "s" 0 1 ⟨none, .failure⟩ (by decide)

/-- C10: a request body with no `message` field at all is treated exactly like
an empty message: the `?? ""` default makes it trim to empty, so the handler
answers 400 with the empty-message error and mutates no state. -/
theorem missing_message_field_empty_error (db : Db) (sid : Option String) (freshId : String)
    (now now2 : Nat) (env : LLMEnv) :
    postChatMessage db ⟨none, sid⟩ freshId now now2 env = (.badRequest emptyMessageError, db) ∧
    (postChatMessage db ⟨none, sid⟩ freshId now now2 env).1.status = 400 := by
  have heq : postChatMessage db ⟨none, sid⟩ freshId now now2 env =
      (.badRequest emptyMessageError, db) := rfl
  exact ⟨heq, by rw [heq]; rfl⟩

/-- C7 (amended): a message whose TRIMMED length exceeds 4000 characters is
rejected with the too-long error (HTTP 400) and no state is mutated.  (The
handler checks the trimmed text; the counterexample shows a raw 4001-character
input that is accepted.) -/
theorem trimmed_too_long_rejected (db : Db) (t : String) (sid : Option String)
    (freshId : String) (now now2 : Nat) (env : LLMEnv)
    (h : 4000 < (jsTrim t).length) :
    postChatMessage db ⟨some t, sid⟩ freshId now now2 env =
      (.badRequest messageTooLongError, db) ∧
    (postChatMessage db ⟨some t, sid⟩ freshId now now2 env).1.status = 400 := by
  have hne : ¬ jsTrim t = "" := by
    intro he
    rw [he] at h
    simp at h
  have heq : postChatMessage db ⟨some t, sid⟩ freshId now now2 env =
      (.badRequest messageTooLongError, db) := by
    simp [postChatMessage, hne, h]
  exact ⟨heq, by rw [heq]; rfl⟩

/-- `dropWhile` keeps a run of a non-matching character. -/
lemma dropWhile_replicate_of_false (p : Char → Bool) (c : Char) (h : p c = false) (n : Nat) :
    List.dropWhile p (List.replicate n c) = List.replicate n c := by
  cases n with
  | zero => rfl
  | succ m => simp [List.replicate_succ, List.dropWhile_cons, h]

/-- The string length of `String.mk` is the list length. -/
lemma length_mk (l : List Char) : (String.mk l).length = l.length := rfl

/-- Trimming a run of a non-whitespace character is the identity. -/
lemma jsTrim_mk_replicate (n : Nat) (c : Char) (h : isJsWhitespace c = false) :
    jsTrim (String.mk (List.replicate n c)) = String.mk (List.replicate n c) := by
  show String.mk ((((List.replicate n c).dropWhile isJsWhitespace).reverse.dropWhile
      isJsWhitespace).reverse) = String.mk (List.replicate n c)
  rw [dropWhile_replicate_of_false _ _ h, List.reverse_replicate,
    dropWhile_replicate_of_false _ _ h, List.reverse_replicate]

/-- Trimming a non-empty run of letters followed by one space keeps just the letters. -/
lemma jsTrim_trailing_space (n : Nat) (c : Char) (h : isJsWhitespace c = false) (hn : n ≠ 0) :
    jsTrim (String.mk (List.replicate n c ++ [' '])) = String.mk (List.replicate n c) := by
  show String.mk ((((List.replicate n c ++ [' ']).dropWhile isJsWhitespace).reverse.dropWhile
      isJsWhitespace).reverse) = String.mk (List.replicate n c)
  have h1 : (List.replicate n c ++ [' ']).dropWhile isJsWhitespace =
      List.replicate n c ++ [' '] := by
    cases n with
    | zero => exact absurd rfl hn
    | succ m => simp [List.replicate_succ, List.cons_append, List.dropWhile_cons, h]
  rw [h1, List.reverse_append, List.reverse_replicate]
  show String.mk ((List.dropWhile isJsWhitespace (' ' :: List.replicate n c)).reverse) =
    String.mk (List.replicate n c)
  rw [List.dropWhile_cons]
  simp only [show isJsWhitespace ' ' = true from rfl, if_true,
    dropWhile_replicate_of_false _ _ h, List.reverse_replicate]

/-- Witness for C7's amended theorem: 4001 letters. -/
theorem trimmed_too_long_rejected_witness :
    postChatMessage ⟨[], [], 0⟩ ⟨some (String.mk (List.replicate 4001 'a')), none⟩ "s" 0 1
        ⟨none, ProviderOutcome.failure⟩ = (.badRequest messageTooLongError, ⟨[], [], 0⟩) ∧
    (postChatMessage ⟨[], [], 0⟩ ⟨some (String.mk (List.replicate 4001 'a')), none⟩ "s" 0 1
        ⟨none, ProviderOutcome.failure⟩).1.status = 400 :=
  trimmed_too_long_rejected ⟨[], [], 0⟩ (String.mk (List.replicate 4001 'a')) none "s" 0 1
    ⟨none, .failure⟩
    (by rw [jsTrim_mk_replicate 4001 'a' (by decide), length_mk, List.length_replicate]; decide)

/-- C4 counterexample: in a concrete successful request the two appended rows
carry the stored sender values `"user"` and `"ai"`; the assistant-side row's
sender is the string `"ai"`, not `"assistant"`. -/
theorem second_row_sender_ai_counterexample :
    ((postChatMessage ⟨[], [], 0⟩ ⟨some "hello", none⟩ "s" 5 7
        ⟨none, ProviderOutcome.failure⟩).2.messages.map (fun m => m.sender)) = ["user", "ai"] ∧
    ("ai" : String) ≠ "assistant" :=
  ⟨rfl, by decide⟩

/-! ### The successful request path -/

/-- A fresh conversation row makes its id visible. -/
lemma convExists_append_self (db : Db) (i : String) (ts : Nat) :
    convExists { db with conversations := db.conversations ++ [⟨i, ts⟩] } i = true := by
  simp [convExists, List.any_append]

/-- When a new conversation is created, the resolved session id is the fresh UUID. -/
lemma resolvedSessionId_new (body : ChatRequestBody) (freshId : String)
    (h : needsNewConversation body = true) : resolvedSessionId body freshId = freshId := by
  obtain ⟨bm, bs⟩ := body
  cases bs with
  | none => rfl
  | some s =>
    simp only [needsNewConversation] at h
    simp [resolvedSessionId, h]

/-- Session resolution leaves the messages table untouched. -/
lemma dbWithConv_messages (db : Db) (body : ChatRequestBody) (freshId : String) (now : Nat) :
    (dbWithConv db body freshId now).messages = db.messages := by
  unfold dbWithConv; split <;> rfl

/-- Session resolution leaves the message id counter untouched. -/
lemma dbWithConv_nextMsgId (db : Db) (body : ChatRequestBody) (freshId : String) (now : Nat) :
    (dbWithConv db body freshId now).nextMsgId = db.nextMsgId := by
  unfold dbWithConv; split <;> rfl

/-- After a resolvable session step the resolved conversation exists. -/
lemma convExists_dbWithConv (db : Db) (body : ChatRequestBody) (freshId : String) (now : Nat)
    (hs : sessionResolvable db body freshId = true) :
    convExists (dbWithConv db body freshId now) (resolvedSessionId body freshId) = true := by
  unfold sessionResolvable at hs
  unfold dbWithConv
  by_cases hn : needsNewConversation body = true
  · rw [if_pos hn] at hs ⊢
    rw [resolvedSessionId_new body freshId hn]
    exact convExists_append_self db freshId now
  · rw [if_neg hn] at hs ⊢
    exact hs

/-- An existing conversation id is found by the conversation lookup. -/
lemma getConversation_exists (db : Db) (c : String) (h : convExists db c = true) :
    ∃ conv, getConversation db c = some conv := by
  unfold convExists at h
  rw [List.any_eq_true] at h
  have hsome : (db.conversations.find? (fun row => row.id == c)).isSome :=
    List.find?_isSome.mpr h
  exact Option.isSome_iff_exists.mp hsome

/-- Unfolding of the handler on the successful path: validation passes, the
session resolves, the user turn and the AI turn are appended in order and the
reply is returned with HTTP 200. -/
lemma postChatMessage_run (db : Db) (body : ChatRequestBody) (freshId : String)
    (now now2 : Nat) (env : LLMEnv)
    (hm : jsTrim (body.message.getD "") ≠ "")
    (hl : ¬ (jsTrim (body.message.getD "")).length > 4000)
    (hs : sessionResolvable db body freshId = true) :
    postChatMessage db body freshId now now2 env =
      (ChatResponse.ok (runReply db body freshId now env) (resolvedSessionId body freshId),
        dbAfterRun db body freshId now now2 env) := by
  have hcvU : convExists (dbWithConv db body freshId now) (resolvedSessionId body freshId) =
      true := convExists_dbWithConv db body freshId now hs
  have hstep1 : (if needsNewConversation body then insertConversation db freshId now
      else Except.ok db : Except DbError Db) = .ok (dbWithConv db body freshId now) := by
    unfold dbWithConv
    by_cases hn : needsNewConversation body = true
    · have hfree : convExists db freshId = false := by
        unfold sessionResolvable at hs
        rw [if_pos hn] at hs
        simpa using hs
      rw [if_pos hn, if_pos hn]
      simp [insertConversation, hfree]
    · rw [if_neg hn, if_neg hn]
  have hstep2 : insertMessage (dbWithConv db body freshId now) (resolvedSessionId body freshId)
      "user" (jsTrim (body.message.getD "")) now =
      .ok ((dbWithConv db body freshId now).nextMsgId, dbAfterUserTurn db body freshId now) := by
    unfold insertMessage
    rw [if_pos hcvU]
    unfold dbAfterUserTurn
    rw [dbWithConv_messages, dbWithConv_nextMsgId]
  have hcvU2 : convExists (dbAfterUserTurn db body freshId now)
      (resolvedSessionId body freshId) = true := hcvU
  have hstep3 : insertMessage (dbAfterUserTurn db body freshId now)
      (resolvedSessionId body freshId) "ai" (runReply db body freshId now env) now2 =
      .ok ((dbAfterUserTurn db body freshId now).nextMsgId,
        dbAfterRun db body freshId now now2 env) := by
    unfold insertMessage
    rw [if_pos hcvU2]
    unfold dbAfterRun dbAfterUserTurn
    simp
  show (let message := jsTrim (body.message.getD "")
    if message = "" then (ChatResponse.badRequest emptyMessageError, db)
    else if message.length > 4000 then (ChatResponse.badRequest messageTooLongError, db)
    else
      let sessionId := resolvedSessionId body freshId
      match (if needsNewConversation body then insertConversation db freshId now
          else .ok db : Except DbError Db) with
      | .error _ => (ChatResponse.serverError chatServerError, db)
      | .ok db0 =>
        match insertMessage db0 sessionId "user" message now with
        | .error _ => (ChatResponse.serverError chatServerError, db0)
        | .ok (_, db1) =>
          let replyText := generateReply env (contextRows db1 sessionId) message
          match insertMessage db1 sessionId "ai" replyText now2 with
          | .error _ => (ChatResponse.serverError chatServerError, db1)
          | .ok (_, db2) => (ChatResponse.ok replyText sessionId, db2)) = _
  simp only [if_neg hm, if_neg hl, hstep1]
  rw [hstep2]
  show (match insertMessage (dbAfterUserTurn db body freshId now) (resolvedSessionId body freshId)
      "ai" (runReply db body freshId now env) now2 with
    | .error _ => (ChatResponse.serverError chatServerError, dbAfterUserTurn db body freshId now)
    | .ok (_, db2) =>
      (ChatResponse.ok (runReply db body freshId now env) (resolvedSessionId body freshId),
        db2)) = _
  rw [hstep3]

/-- The resolved conversation still exists after the whole request. -/
lemma dbAfterRun_convExists (db : Db) (body : ChatRequestBody) (freshId : String)
    (now now2 : Nat) (env : LLMEnv) (hs : sessionResolvable db body freshId = true) :
    convExists (dbAfterRun db body freshId now now2 env)
      (resolvedSessionId body freshId) = true :=
  convExists_dbWithConv db body freshId now hs

/-- After a successful request, the history endpoint lists the trimmed user
message as a `user`-sender row with the request timestamp. -/
lemma run_history_user_mem (db : Db) (body : ChatRequestBody) (freshId : String)
    (now now2 : Nat) (env : LLMEnv) (hs : sessionResolvable db body freshId = true) :
    ∃ createdAt msgs,
      (getChatHistory (dbAfterRun db body freshId now now2 env)
          (resolvedSessionId body freshId)).1 =
        .ok (resolvedSessionId body freshId) createdAt msgs ∧
      (⟨"user", jsTrim (body.message.getD ""), now⟩ : HistoryRow) ∈ msgs := by
  obtain ⟨conv, hconv⟩ :=
    getConversation_exists _ _ (dbAfterRun_convExists db body freshId now now2 env hs)
  refine ⟨conv.created_at,
    (messagesOf (dbAfterRun db body freshId now now2 env)
      (resolvedSessionId body freshId)).map MsgRow.toHistoryRow, ?_, ?_⟩
  · unfold getChatHistory
    rw [hconv]
  · have hmem : (⟨db.nextMsgId, resolvedSessionId body freshId, "user",
        jsTrim (body.message.getD ""), now⟩ : MsgRow) ∈
        (dbAfterRun db body freshId now now2 env).messages := by
      unfold dbAfterRun
      simp
    have hfil : (⟨db.nextMsgId, resolvedSessionId body freshId, "user",
        jsTrim (body.message.getD ""), now⟩ : MsgRow) ∈
        (dbAfterRun db body freshId now now2 env).messages.filter
          (fun m => m.conversation_id == resolvedSessionId body freshId) :=
      List.mem_filter.mpr ⟨hmem, by simp⟩
    have hsorted : (⟨db.nextMsgId, resolvedSessionId body freshId, "user",
        jsTrim (body.message.getD ""), now⟩ : MsgRow) ∈
        messagesOf (dbAfterRun db body freshId now now2 env)
          (resolvedSessionId body freshId) :=
      (List.perm_insertionSort msgLe _).mem_iff.mpr hfil
    exact List.mem_map_of_mem MsgRow.toHistoryRow hsorted

/-- C3: for a valid message with a resolvable session, even when every
generation attempt fails, the request still answers HTTP 200 with a non-empty
fixed fallback reply, the user's trimmed message is durably recorded (it shows
up in a subsequent history lookup with the user-turn timestamp), and the
conversation receives a paired `ai`-sender reply row. -/
theorem user_turn_durable_under_generation_failure (db : Db) (body : ChatRequestBody)
    (freshId : String) (now now2 : Nat) (env : LLMEnv)
    (hm : jsTrim (body.message.getD "") ≠ "")
    (hl : ¬ (jsTrim (body.message.getD "")).length > 4000)
    (hs : sessionResolvable db body freshId = true)
    (hfail : env.hasClient = false ∨ env.outcome = .failure) :
    ∃ reply,
      (postChatMessage db body freshId now now2 env).1 =
        .ok reply (resolvedSessionId body freshId) ∧
      (postChatMessage db body freshId now now2 env).1.status = 200 ∧
      reply ≠ "" ∧
      (reply = noKeyFallback ∨ reply = llmErrorFallback) ∧
      (∃ createdAt msgs,
        (getChatHistory (postChatMessage db body freshId now now2 env).2
            (resolvedSessionId body freshId)).1 =
          .ok (resolvedSessionId body freshId) createdAt msgs ∧
        (⟨"user", jsTrim (body.message.getD ""), now⟩ : HistoryRow) ∈ msgs) ∧
      (∃ m ∈ (postChatMessage db body freshId now now2 env).2.messages,
        m.sender = "ai" ∧ m.text = reply) := by
  have h4 : runReply db body freshId now env = noKeyFallback ∨
      runReply db body freshId now env = llmErrorFallback := by
    rcases hfail with hf | hf
    · exact Or.inl (by simp [runReply, generateReply, hf])
    · cases hc : env.hasClient with
      | false => exact Or.inl (by simp [runReply, generateReply, hc])
      | true => exact Or.inr (by simp [runReply, generateReply, hc, hf])
  rw [postChatMessage_run db body freshId now now2 env hm hl hs]
  refine ⟨runReply db body freshId now env, rfl, rfl, ?_, h4, ?_, ?_⟩
  · rcases h4 with h | h <;> rw [h] <;> decide
  · exact run_history_user_mem db body freshId now now2 env hs
  · refine ⟨⟨db.nextMsgId + 1, resolvedSessionId body freshId, "ai",
      runReply db body freshId now env, now2⟩, ?_, rfl, rfl⟩
    unfold dbAfterRun
    simp

/-- Witness for C3's theorem at a concrete request under a missing credential. -/
theorem user_turn_durable_under_generation_failure_witness :
    sessionResolvable ⟨[], [], 0⟩ ⟨some "hello", none⟩ "s" = true ∧
    (∃ reply,
      (postChatMessage ⟨[], [], 0⟩ ⟨some "hello", none⟩ "s" 0 1
          ⟨none, ProviderOutcome.failure⟩).1 =
        .ok reply (resolvedSessionId ⟨some "hello", none⟩ "s") ∧
      (postChatMessage ⟨[], [], 0⟩ ⟨some "hello", none⟩ "s" 0 1
          ⟨none, ProviderOutcome.failure⟩).1.status = 200 ∧
      reply ≠ "" ∧
      (reply = noKeyFallback ∨ reply = llmErrorFallback) ∧
      (∃ createdAt msgs,
        (getChatHistory (postChatMessage ⟨[], [], 0⟩ ⟨some "hello", none⟩ "s" 0 1
            ⟨none, ProviderOutcome.failure⟩).2
            (resolvedSessionId ⟨some "hello", none⟩ "s")).1 =
          .ok (resolvedSessionId ⟨some "hello", none⟩ "s") createdAt msgs ∧
        (⟨"user", jsTrim ((some "hello" : Option String).getD ""), 0⟩ : HistoryRow) ∈ msgs) ∧
      (∃ m ∈ (postChatMessage ⟨[], [], 0⟩ ⟨some "hello", none⟩ "s" 0 1
          ⟨none, ProviderOutcome.failure⟩).2.messages,
        m.sender = "ai" ∧ m.text = reply)) :=
  ⟨by decide,
   user_turn_durable_under_generation_failure ⟨[], [], 0⟩ ⟨some "hello", none⟩ "s" 0 1
     ⟨none, .failure⟩ (by decide) (by decide) (by decide) (Or.inl rfl)⟩

/-- C4 (amended): for a valid message with a resolvable session, exactly two
message rows are appended per request — first one with sender `"user"`, then
one with sender `"ai"` (the assistant-side role as stored) — in that order,
with the `"ai"` row's timestamp greater than or equal to the user row's. -/
theorem two_rows_appended_user_then_ai (db : Db) (body : ChatRequestBody) (freshId : String)
    (now now2 : Nat) (env : LLMEnv)
    (hm : jsTrim (body.message.getD "") ≠ "")
    (hl : ¬ (jsTrim (body.message.getD "")).length > 4000)
    (hs : sessionResolvable db body freshId = true)
    (ht : now ≤ now2) :
    ∃ reply,
      (postChatMessage db body freshId now now2 env).2.messages =
        db.messages ++
          [⟨db.nextMsgId, resolvedSessionId body freshId, "user",
              jsTrim (body.message.getD ""), now⟩,
            ⟨db.nextMsgId + 1, resolvedSessionId body freshId, "ai", reply, now2⟩] ∧
      now ≤ now2 := by
  rw [postChatMessage_run db body freshId now now2 env hm hl hs]
  exact ⟨runReply db body freshId now env, rfl, ht⟩

/-- Witness for C4's amended theorem at a concrete request. -/
theorem two_rows_appended_user_then_ai_witness :
    (3 : Nat) ≤ 8 ∧
    (∃ reply,
      (postChatMessage ⟨[], [], 0⟩ ⟨some "hello", none⟩ "s" 3 8
          ⟨none, ProviderOutcome.failure⟩).2.messages =
        ([] : List MsgRow) ++
          [⟨0, resolvedSessionId ⟨some "hello", none⟩ "s", "user",
              jsTrim ((some "hello" : Option String).getD ""), 3⟩,
            ⟨0 + 1, resolvedSessionId ⟨some "hello", none⟩ "s", "ai", reply, 8⟩] ∧
      (3 : Nat) ≤ 8) :=
  ⟨by decide,
   two_rows_appended_user_then_ai ⟨[], [], 0⟩ ⟨some "hello", none⟩ "s" 3 8
     ⟨none, .failure⟩ (by decide) (by decide) (by decide) (by decide)⟩

/-- C9: for a valid message with a resolvable session, the submitted text
appears verbatim modulo trimming as a `user`-sender entry in the history
response for the returned session identifier. -/
theorem round_trip_user_message (db : Db) (body : ChatRequestBody) (freshId : String)
    (now now2 : Nat) (env : LLMEnv)
    (hm : jsTrim (body.message.getD "") ≠ "")
    (hl : ¬ (jsTrim (body.message.getD "")).length > 4000)
    (hs : sessionResolvable db body freshId = true) :
    ∃ reply createdAt msgs,
      (postChatMessage db body freshId now now2 env).1 =
        .ok reply (resolvedSessionId body freshId) ∧
      (getChatHistory (postChatMessage db body freshId now now2 env).2
          (resolvedSessionId body freshId)).1 =
        .ok (resolvedSessionId body freshId) createdAt msgs ∧
      (⟨"user", jsTrim (body.message.getD ""), now⟩ : HistoryRow) ∈ msgs := by
  rw [postChatMessage_run db body freshId now now2 env hm hl hs]
  obtain ⟨createdAt, msgs, h1, h2⟩ := run_history_user_mem db body freshId now now2 env hs
  exact ⟨runReply db body freshId now env, createdAt, msgs, rfl, h1, h2⟩

/-- Witness for C9's theorem at a concrete request. -/
theorem round_trip_user_message_witness :
    sessionResolvable ⟨[], [], 0⟩ ⟨some " hi there ", none⟩ "s" = true ∧
    (∃ reply createdAt msgs,
      (postChatMessage ⟨[], [], 0⟩ ⟨some " hi there ", none⟩ "s" 0 1
          ⟨none, ProviderOutcome.failure⟩).1 =
        .ok reply (resolvedSessionId ⟨some " hi there ", none⟩ "s") ∧
      (getChatHistory (postChatMessage ⟨[], [], 0⟩ ⟨some " hi there ", none⟩ "s" 0 1
          ⟨none, ProviderOutcome.failure⟩).2
          (resolvedSessionId ⟨some " hi there ", none⟩ "s")).1 =
        .ok (resolvedSessionId ⟨some " hi there ", none⟩ "s") createdAt msgs ∧
      (⟨"user", jsTrim ((some " hi there " : Option String).getD ""), 0⟩ : HistoryRow) ∈ msgs) :=
  ⟨by decide,
   round_trip_user_message ⟨[], [], 0⟩ ⟨some " hi there ", none⟩ "s" 0 1
     ⟨none, .failure⟩ (by decide) (by decide) (by decide)⟩

/-- C7 counterexample: a raw input of 4001 characters (4000 letters, one
trailing space) is NOT rejected: it trims to 4000 characters, so the request
succeeds with HTTP 200 and two rows are persisted. -/
theorem raw_length_4001_accepted_counterexample :
    (String.mk (List.replicate 4000 'a' ++ [' '])).length = 4001 ∧
    (postChatMessage ⟨[], [], 0⟩ ⟨some (String.mk (List.replicate 4000 'a' ++ [' '])), none⟩
        "s" 0 1 ⟨none, ProviderOutcome.failure⟩).1 = .ok noKeyFallback "s" ∧
    ((postChatMessage ⟨[], [], 0⟩ ⟨some (String.mk (List.replicate 4000 'a' ++ [' '])), none⟩
        "s" 0 1 ⟨none, ProviderOutcome.failure⟩).2.messages.map
          (fun m => m.sender)) = ["user", "ai"] := by
  have htrim : jsTrim (String.mk (List.replicate 4000 'a' ++ [' '])) =
      String.mk (List.replicate 4000 'a') :=
    jsTrim_trailing_space 4000 'a' (by decide) (by decide)
  have hm : jsTrim (String.mk (List.replicate 4000 'a' ++ [' '])) ≠ "" := by
    rw [htrim]
    intro h
    have h2 := congrArg String.length h
    rw [length_mk, List.length_replicate] at h2
    exact absurd h2 (by decide)
  have hl : ¬ (jsTrim (String.mk (List.replicate 4000 'a' ++ [' ']))).length > 4000 := by
    rw [htrim, length_mk, List.length_replicate]
    decide
  have hrun := postChatMessage_run ⟨[], [], 0⟩
    ⟨some (String.mk (List.replicate 4000 'a' ++ [' '])), none⟩ "s" 0 1
    ⟨none, .failure⟩ hm hl (by decide)
  refine ⟨?_, ?_, ?_⟩
  · rw [length_mk, List.length_append, List.length_replicate]
    decide
  · rw [hrun]
    rfl
  · rw [hrun]
    rfl

/-- C8: the history endpoint mutates no state; an unknown session id yields
404 with the not-found error; a known id yields 200 with the session id, the
conversation's creation timestamp, and the full message sequence of the
conversation (a permutation of all its stored rows, nothing windowed away) in
ascending `created_at` order. -/
theorem history_endpoint_characterization (db : Db) (sid : String) :
    (getChatHistory db sid).2 = db ∧
    (convExists db sid = false →
      (getChatHistory db sid).1 = .notFound "Conversation not found." ∧
      (getChatHistory db sid).1.status = 404) ∧
    (∀ conv, getConversation db sid = some conv →
      (getChatHistory db sid).1 =
        .ok sid conv.created_at ((messagesOf db sid).map MsgRow.toHistoryRow) ∧
      (getChatHistory db sid).1.status = 200 ∧
      List.Sorted msgLe (messagesOf db sid) ∧
      (messagesOf db sid).Perm
        (db.messages.filter (fun m => m.conversation_id == sid))) := by
  refine ⟨?_, ?_, ?_⟩
  · unfold getChatHistory
    cases getConversation db sid <;> rfl
  · intro h
    have hnone : getConversation db sid = none := by
      unfold getConversation
      rw [List.find?_eq_none]
      intro a ha hpa
      have htrue : convExists db sid = true := by
        unfold convExists
        exact List.any_eq_true.mpr ⟨a, ha, hpa⟩
      rw [htrue] at h
      exact absurd h (by decide)
    have heq : getChatHistory db sid = (.notFound "Conversation not found.", db) := by
      unfold getChatHistory
      rw [hnone]
    exact ⟨by rw [heq], by rw [heq]; rfl⟩
  · intro conv hc
    have heq : getChatHistory db sid =
        (.ok sid conv.created_at ((messagesOf db sid).map MsgRow.toHistoryRow), db) := by
      unfold getChatHistory
      rw [hc]
    exact ⟨by rw [heq], by rw [heq]; rfl,
      List.sorted_insertionSort msgLe _, List.perm_insertionSort msgLe _⟩

/-- Witness for C8's theorem: an unknown and a known session id on a one-row
conversation. -/
theorem history_endpoint_characterization_witness :
    ((getChatHistory ⟨[⟨"s", 5⟩], [⟨0, "s", "user", "hi", 6⟩], 1⟩ "t").1 =
        .notFound "Conversation not found." ∧
      (getChatHistory ⟨[⟨"s", 5⟩], [⟨0, "s", "user", "hi", 6⟩], 1⟩ "t").1.status = 404) ∧
    ((getChatHistory ⟨[⟨"s", 5⟩], [⟨0, "s", "user", "hi", 6⟩], 1⟩ "s").1 =
        .ok "s" (⟨"s", 5⟩ : ConvRow).created_at
          ((messagesOf ⟨[⟨"s", 5⟩], [⟨0, "s", "user", "hi", 6⟩], 1⟩ "s").map
            MsgRow.toHistoryRow) ∧
      (getChatHistory ⟨[⟨"s", 5⟩], [⟨0, "s", "user", "hi", 6⟩], 1⟩ "s").1.status = 200 ∧
      List.Sorted msgLe (messagesOf ⟨[⟨"s", 5⟩], [⟨0, "s", "user", "hi", 6⟩], 1⟩ "s") ∧
      (messagesOf ⟨[⟨"s", 5⟩], [⟨0, "s", "user", "hi", 6⟩], 1⟩ "s").Perm
        ((⟨[⟨"s", 5⟩], [⟨0, "s", "user", "hi", 6⟩], 1⟩ : Db).messages.filter
          (fun m => m.conversation_id == "s"))) :=
  ⟨(history_endpoint_characterization ⟨[⟨"s", 5⟩], [⟨0, "s", "user", "hi", 6⟩], 1⟩ "t").2.1
      (by decide),
   (history_endpoint_characterization ⟨[⟨"s", 5⟩], [⟨0, "s", "user", "hi", 6⟩], 1⟩ "s").2.2
      ⟨"s", 5⟩ (by decide)⟩

set_option maxRecDepth 4000

/-- C1 (code bug): on a conversation holding 51 messages (timestamps 0..50),
the handler's query reads the OLDEST 20 rows (`ORDER BY created_at ASC
LIMIT 20`) and `generateReply` keeps the last 10 of those, so the generator
input history is the messages with timestamps 10..19 — while the 10 most
recent messages of the conversation (the claim's context, in ascending order)
are those with timestamps 41..50.  The window is capped at 10 and ascending,
but it is never the most recent messages once the conversation exceeds 20. -/
theorem context_window_ignores_recent_messages :
    (generatorInputHistory (contextRows db51 "s")).map (fun m => m.content) =
      ["m10", "m11", "m12", "m13", "m14", "m15", "m16", "m17", "m18", "m19"] ∧
    (mostRecentTenContext db51 "s").map (fun m => m.content) =
      ["m41", "m42", "m43", "m44", "m45", "m46", "m47", "m48", "m49", "m50"] ∧
    (generatorInputHistory (contextRows db51 "s")).length ≤ 10 ∧
    generatorInputHistory (contextRows db51 "s") ≠ mostRecentTenContext db51 "s" :=
  ⟨by decide, by decide, by decide, by decide⟩

end SpurChat
